import Mathlib

/-!
Verification of the `disaggregator` repository (spatial.py, temporal.py).

The pandas tables are embedded as functions out of finite index types with
exact rational entries (real entries for the trigonometric utilities).
A `pd.Series` indexed by NUTS-3 regions becomes `ι → ℚ` with `[Fintype ι]`;
a `pd.DataFrame` with region rows and column type `σ` becomes `ι → σ → ℚ`.
`Series.sum()` is the sum over the whole (finite) index, `.mean()` is
sum divided by cardinality, exactly as pandas computes them.
Functions that can raise are embedded as `Except String` / `Option` values.
-/

namespace Disaggregator

/-! ## Spatial disaggregation (spatial.py) -/

/-- Result shape of `disagg_households_power`: the `'households'` branch
returns a region × household-size DataFrame, the `'population'` branch a
region-indexed Series. -/
inductive PowerResult (ι σ : Type) where
  | series (f : ι → ℚ)
  | frame (f : ι → σ → ℚ)

/-- Income distribution keys `income() / income().mean()` used by
`adjust_by_income` (spatial.py line 191); pandas `.mean()` is
sum divided by the number of rows. -/
def incomeKeys {ι : Type} [Fintype ι] (income : ι → ℚ) : ι → ℚ :=
  fun r => income r / ((∑ x, income x) / (Fintype.card ι : ℚ))

/-- Embedding of `adjust_by_income` (spatial.py lines 190-192) applied to a
region-indexed Series: `df.multiply(income_keys, axis=0)`. -/
def adjust_by_income {ι : Type} [Fintype ι] (income : ι → ℚ) (df : ι → ℚ) : ι → ℚ :=
  fun r => df r * incomeKeys income r

/-- Embedding of `adjust_by_income` (spatial.py lines 190-192) applied to a
DataFrame with region rows: each row is multiplied by the region's income
key (`axis=0`). -/
def adjust_by_income_frame {ι α : Type} [Fintype ι] (income : ι → ℚ)
    (df : ι → α → ℚ) : ι → α → ℚ :=
  fun r c => df r c * incomeKeys income r

/-- Embedding of `disagg_households_power` (spatial.py lines 30-61).
The data-loading functions of the (absent) `data` module are parameters:
`elc_HH` is `elc_consumption_HH()`, `elc_HH_size` is
`elc_consumption_HH(by_HH_size=True)`, and `households_per_size`,
`population`, `income` are the corresponding reference tables. -/
def disagg_households_power {ι σ : Type} [Fintype ι] (by_ : String)
    (weight_by_income : Bool) (elc_HH : ℚ) (elc_HH_size : σ → ℚ)
    (households_per_size : ι → σ → ℚ) (population : ι → ℚ)
    (income : ι → ℚ) : Except String (PowerResult ι σ) :=
  if by_ = "households" then
    let power_per_HH : σ → ℚ := fun s => elc_HH_size s / 1000
    let df : ι → σ → ℚ := fun r s => households_per_size r s * power_per_HH s
    .ok (.frame (if weight_by_income then adjust_by_income_frame income df else df))
  else if by_ = "population" then
    let power_nuts0 : ℚ := elc_HH / 1000
    let distribution_keys : ι → ℚ := fun r => population r / ∑ x, population x
    let df : ι → ℚ := fun r => distribution_keys r * power_nuts0
    .ok (.series (if weight_by_income then adjust_by_income income df else df))
  else
    .error "`by` must be in ['households', 'population']"

/-- Total of a `disagg_households_power` result over all regions (and, for
the DataFrame shape, all household-size columns). -/
def powerTotal {ι σ : Type} [Fintype ι] [Fintype σ] :
    PowerResult ι σ → ℚ
  | .series f => ∑ r, f r
  | .frame f => ∑ r, ∑ s, f r s

/-- Total of an `Except`-wrapped power result; an error counts as 0. -/
def exceptPowerTotal {ι σ : Type} [Fintype ι] [Fintype σ] :
    Except String (PowerResult ι σ) → ℚ
  | .ok p => powerTotal p
  | .error _ => 0

/-! Claim theorems for the power disaggregation. -/

/-- Claim C2: `disagg_households_power(by='population', weight_by_income=False)`
returns exactly `(population() / population().sum()) * (elc_consumption_HH() / 1e3)`,
and (whenever the total population is non-zero, so that the distribution keys
are well defined) the regional values sum to the national total
`elc_consumption_HH() / 1e3`. -/
theorem claim_C2 {ι σ : Type} [Fintype ι] (elc_HH : ℚ) (elc_HH_size : σ → ℚ)
    (hh : ι → σ → ℚ) (population income : ι → ℚ) :
    disagg_households_power "population" false elc_HH elc_HH_size hh population income =
      .ok (.series (fun r => population r / (∑ x, population x) * (elc_HH / 1000))) ∧
    ((∑ x, population x) ≠ 0 →
      (∑ r, population r / (∑ x, population x) * (elc_HH / 1000)) = elc_HH / 1000) := by
  constructor
  · rfl
  · intro hS
    have : (∑ r, population r / (∑ x, population x) * (elc_HH / 1000)) =
        (∑ r, population r) / (∑ x, population x) * (elc_HH / 1000) := by
      rw [Finset.sum_div, Finset.sum_mul]
    rw [this, div_self hS, one_mul]

/-- Witness for claim C2 at a concrete input: two regions with populations
1 and 3 and national consumption 10 GWh. -/
theorem claim_C2_witness :
    ((∑ x : Fin 2, (if x = 0 then (1 : ℚ) else 3)) ≠ 0) ∧
    (∑ r : Fin 2, (if r = 0 then (1 : ℚ) else 3) /
        (∑ x : Fin 2, (if x = 0 then (1 : ℚ) else 3)) * ((10 : ℚ) / 1000)) =
      (10 : ℚ) / 1000 :=
  ⟨by norm_num [Fin.sum_univ_two],
    (@claim_C2 (Fin 2) (Fin 1) _ 10 (fun _ => 0) (fun _ _ => 0)
      (fun r => if r = 0 then 1 else 3) (fun _ => 0)).2
      (by norm_num [Fin.sum_univ_two])⟩

/-- Claim C3 fails: income reweighting does change the distributed total.
Counterexample with two regions, populations (1, 0), incomes (1, 3) and a
national consumption of 2000 GWh (so 2 after the `/1e3` scaling): the
unweighted `'population'` result totals 2, the income-weighted one totals 1. -/
theorem claim_C3_counterexample :
    exceptPowerTotal (@disagg_households_power (Fin 2) (Fin 1) _ "population" true
        2000 (fun _ => 0) (fun _ _ => 0) (fun r => if r = 0 then 1 else 0)
        (fun r => if r = 0 then 1 else 3)) = 1 ∧
    exceptPowerTotal (@disagg_households_power (Fin 2) (Fin 1) _ "population" false
        2000 (fun _ => 0) (fun _ _ => 0) (fun r => if r = 0 then 1 else 0)
        (fun r => if r = 0 then 1 else 3)) = 2 ∧
    (1 : ℚ) ≠ 2 := by
  have hs : ("population" = "households") = False := by simp
  refine ⟨?_, ?_, by norm_num⟩ <;>
    norm_num [disagg_households_power, exceptPowerTotal, powerTotal, hs,
      adjust_by_income, incomeKeys, Fin.sum_univ_two]

/-- Claim C3, amended: `adjust_by_income` multiplies region `r`'s value by
`income r / mean(income)`, so the reweighted total is
`(Σ_r df_r·income_r) / mean(income)` rather than the original total `Σ_r df_r`;
the total is preserved when all regional incomes are equal (and non-zero),
but not in general. -/
theorem claim_C3_amended {ι : Type} [Fintype ι] (income df : ι → ℚ) (c : ℚ) :
    (∑ r, adjust_by_income income df r =
      (∑ r, df r * income r) / ((∑ x, income x) / (Fintype.card ι : ℚ))) ∧
    (income = (fun _ => c) → c ≠ 0 → 0 < Fintype.card ι →
      ∑ r, adjust_by_income income df r = ∑ r, df r) := by
  constructor
  · have hterm : ∀ r : ι, adjust_by_income income df r =
        df r * income r * ((∑ x, income x) / (Fintype.card ι : ℚ))⁻¹ := by
      intro r
      rw [adjust_by_income, incomeKeys, div_eq_mul_inv (income r), mul_assoc]
    rw [Finset.sum_congr rfl fun r _ => hterm r, ← Finset.sum_mul,
      ← div_eq_mul_inv]
  · intro hinc hc hcard
    subst hinc
    have hn : (Fintype.card ι : ℚ) ≠ 0 := by positivity
    refine Finset.sum_congr rfl fun r _ => ?_
    rw [adjust_by_income, incomeKeys, Finset.sum_const, Finset.card_univ,
      nsmul_eq_mul]
    field_simp

/-- Witness for the amended claim C3: two regions with equal incomes 3 and
demands (1, 5); the reweighted total equals the original total 6. -/
theorem claim_C3_amended_witness :
    ((fun _ : Fin 2 => (3 : ℚ)) = fun _ => (3 : ℚ)) ∧ (3 : ℚ) ≠ 0 ∧
      0 < Fintype.card (Fin 2) ∧
    (∑ r : Fin 2, adjust_by_income (fun _ => (3 : ℚ))
        (fun r => if r = 0 then 1 else 5) r) =
      ∑ r : Fin 2, (if r = 0 then (1 : ℚ) else 5) :=
  ⟨rfl, by norm_num, by norm_num,
    (claim_C3_amended (fun _ => (3 : ℚ)) (fun r => if r = 0 then 1 else 5) 3).2
      rfl (by norm_num) (by norm_num)⟩

/-! ### Gas disaggregation (top-down branch) -/

/-- Column labels of the national gas-consumption components
`gas_consumption_HH()` and of the top-down result. -/
inductive GasCol where
  | Cooking
  | HotWater
  | SpaceHeating
deriving DecidableEq

/-- Embedding of the `how='top-down'` branch of `disagg_households_gas`
(spatial.py lines 111-124 and the closing income-weighting step, lines
171-174). `gas_consumption_HH` is the national component table;
`living_space` stands for `living_space(aggregate=True, internal_id_2=11,
internal_id_3=1)` with column type `κ`, and `df_ls_gas` / `df_HH` are its
row sums and the row sums of `households_per_size` (`.sum(axis=1)`).
The `how='bottom-up'` branch is a separate computation not touched by any
claim and is not embedded. -/
def disagg_households_gas_top_down {ι σ κ : Type} [Fintype ι] [Fintype σ]
    [Fintype κ] (weight_by_income : Bool) (gas_consumption_HH : GasCol → ℚ)
    (living_space : ι → κ → ℚ) (households_per_size : ι → σ → ℚ)
    (income : ι → ℚ) : ι → GasCol → ℚ :=
  let df_ls_gas : ι → ℚ := fun r => ∑ c, living_space r c
  let df_HH : ι → ℚ := fun r => ∑ s, households_per_size r s
  let d_keys_space : ι → ℚ := fun r => df_ls_gas r / ∑ x, df_ls_gas x
  let d_keys_HW_cook : ι → ℚ := fun r => df_HH r / ∑ x, df_HH x
  let df : ι → GasCol → ℚ := fun r col =>
    match col with
    | .Cooking => d_keys_HW_cook r * gas_consumption_HH .Cooking
    | .HotWater => d_keys_HW_cook r * gas_consumption_HH .HotWater
    | .SpaceHeating => d_keys_space r * gas_consumption_HH .SpaceHeating
  if weight_by_income then adjust_by_income_frame income df else df

/-- Claim C5: in the top-down gas disaggregation the `Cooking` and `HotWater`
columns are the national components multiplied by household-count shares and
`SpaceHeating` is the national component multiplied by living-space shares;
consequently (whenever the respective key denominators are non-zero) each
column sums over the regions to its national component. -/
theorem claim_C5 {ι σ κ : Type} [Fintype ι] [Fintype σ] [Fintype κ]
    (gas : GasCol → ℚ) (ls : ι → κ → ℚ) (hh : ι → σ → ℚ) (income : ι → ℚ) :
    (∀ r, disagg_households_gas_top_down false gas ls hh income r .Cooking =
      (∑ s, hh r s) / (∑ x, ∑ s, hh x s) * gas .Cooking) ∧
    (∀ r, disagg_households_gas_top_down false gas ls hh income r .HotWater =
      (∑ s, hh r s) / (∑ x, ∑ s, hh x s) * gas .HotWater) ∧
    (∀ r, disagg_households_gas_top_down false gas ls hh income r .SpaceHeating =
      (∑ c, ls r c) / (∑ x, ∑ c, ls x c) * gas .SpaceHeating) ∧
    ((∑ x, ∑ s, hh x s) ≠ 0 →
      (∑ r, disagg_households_gas_top_down false gas ls hh income r .Cooking) =
        gas .Cooking) ∧
    ((∑ x, ∑ s, hh x s) ≠ 0 →
      (∑ r, disagg_households_gas_top_down false gas ls hh income r .HotWater) =
        gas .HotWater) ∧
    ((∑ x, ∑ c, ls x c) ≠ 0 →
      (∑ r, disagg_households_gas_top_down false gas ls hh income r .SpaceHeating) =
        gas .SpaceHeating) := by
  have key : ∀ (f : ι → ℚ) (g : ℚ), (∑ x, f x) ≠ 0 →
      (∑ r, f r / (∑ x, f x) * g) = g := by
    intro f g hS
    rw [show (∑ r, f r / (∑ x, f x) * g) = (∑ r, f r) / (∑ x, f x) * g by
      rw [Finset.sum_div, Finset.sum_mul]]
    rw [div_self hS, one_mul]
  refine ⟨fun r => rfl, fun r => rfl, fun r => rfl, ?_, ?_, ?_⟩
  · exact fun h => key (fun r => ∑ s, hh r s) (gas .Cooking) h
  · exact fun h => key (fun r => ∑ s, hh r s) (gas .HotWater) h
  · exact fun h => key (fun r => ∑ c, ls r c) (gas .SpaceHeating) h

/-- The concrete gas component table used in the witness for claim C5. -/
def gasWitnessTable : GasCol → ℚ
  | .Cooking => 7
  | .HotWater => 8
  | .SpaceHeating => 9

theorem claim_C5_witness :
    ((∑ x : Fin 1, ∑ s : Fin 1, (1 : ℚ)) ≠ 0) ∧
    ((∑ x : Fin 1, ∑ c : Fin 1, (2 : ℚ)) ≠ 0) ∧
    (∑ r : Fin 1, disagg_households_gas_top_down false gasWitnessTable
        (fun (_ : Fin 1) (_ : Fin 1) => (2 : ℚ)) (fun (_ : Fin 1) (_ : Fin 1) => (1 : ℚ)) (fun _ : Fin 1 => 0)
        r .Cooking) = 7 ∧
    (∑ r : Fin 1, disagg_households_gas_top_down false gasWitnessTable
        (fun (_ : Fin 1) (_ : Fin 1) => (2 : ℚ)) (fun (_ : Fin 1) (_ : Fin 1) => (1 : ℚ)) (fun _ : Fin 1 => 0)
        r .HotWater) = 8 ∧
    (∑ r : Fin 1, disagg_households_gas_top_down false gasWitnessTable
        (fun (_ : Fin 1) (_ : Fin 1) => (2 : ℚ)) (fun (_ : Fin 1) (_ : Fin 1) => (1 : ℚ)) (fun _ : Fin 1 => 0)
        r .SpaceHeating) = 9 := by
  have h := @claim_C5 (Fin 1) (Fin 1) (Fin 1) _ _ _ gasWitnessTable
    (fun _ _ => (2 : ℚ)) (fun _ _ => (1 : ℚ)) (fun _ => 0)
  refine ⟨by norm_num, by norm_num, ?_, ?_, ?_⟩
  · have := h.2.2.2.1 (by norm_num)
    simpa [gasWitnessTable] using this
  · have := h.2.2.2.2.1 (by norm_num)
    simpa [gasWitnessTable] using this
  · have := h.2.2.2.2.2 (by norm_num)
    simpa [gasWitnessTable] using this

/-! ### Heat disaggregation and the unimplemented entry points -/

/-- Error message raised by `disagg_households_heat` for an invalid `by`
(spatial.py lines 78-82). -/
def heatByError : String :=
  "The heating demand of households depends mainly on the different household sizes and the building types but not on the absolute population. Thus, please pass `by=` either as \"households\" or \"buildings\"."

/-- Embedding of `disagg_households_heat` (spatial.py lines 64-92).
`heat_consumption_HH` is the reference table `heat_consumption_HH(by=by)`
(heat-type rows `η`, columns `γ`); `households_per_size` and `living_space`
are the bases used for `by='households'` resp. `by='buildings'` (both with
column type `γ`). After the guard, the result DataFrame has one column per
(heat-type, base-column) pair holding the base column scaled by the
specific heat demand, i.e. `df.loc[:, (idx, col)] = ser` followed by
`df *= df_heat_specific`. -/
def disagg_households_heat {ι η γ : Type} (by_ : String)
    (heat_consumption_HH : String → η → γ → ℚ)
    (households_per_size : ι → γ → ℚ) (living_space : ι → γ → ℚ) :
    Except String (ι → η × γ → ℚ) :=
  if by_ ∉ (["households", "buildings"] : List String) then
    .error heatByError
  else
    let base : ι → γ → ℚ :=
      if by_ = "households" then households_per_size else living_space
    .ok (fun r ic => base r ic.2 * heat_consumption_HH by_ ic.1 ic.2)

/-- Claim C9: `disagg_households_heat` raises `ValueError` for every `by`
outside `{'households', 'buildings'}`; in particular `by='population'`,
which its own docstring lists as allowed, is rejected and no result is
computed. -/
theorem claim_C9 {ι η γ : Type} (heat : String → η → γ → ℚ)
    (hh ls : ι → γ → ℚ) (by_ : String)
    (h : by_ ∉ (["households", "buildings"] : List String)) :
    disagg_households_heat by_ heat hh ls = .error heatByError ∧
    disagg_households_heat "population" heat hh ls =
      (Except.error heatByError : Except String (ι → η × γ → ℚ)) := by
  constructor
  · rw [disagg_households_heat, if_pos h]
  · rw [disagg_households_heat, if_pos (by decide)]

/-- Witness for claim C9 at `by='population'` over singleton index types. -/
theorem claim_C9_witness :
    ("population" ∉ (["households", "buildings"] : List String)) ∧
    disagg_households_heat "population" (fun _ (_ : Fin 1) (_ : Fin 1) => (0 : ℚ))
      (fun (_ : Fin 1) _ => 0) (fun _ _ => 0) = .error heatByError :=
  ⟨by decide,
    (claim_C9 (fun _ (_ : Fin 1) (_ : Fin 1) => (0 : ℚ))
      (fun (_ : Fin 1) _ => 0) (fun _ _ => 0) "population" (by decide)).1⟩

/-- Embedding of `create_zve_load_profile` (temporal.py lines 75-184): the
function raises `NotImplementedError('This function is not ready to use!')`
as its first statement, so every call errors before any computation. -/
def create_zve_load_profile (nTsLP : ℕ) : Except String Unit :=
  .error "This function is not ready to use!"

/-- Embedding of `disagg_CTS` (spatial.py lines 177-179): unconditionally
raises `NotImplementedError`. -/
def disagg_CTS : Except String Unit :=
  .error "Not here yet, to be done by TU Berlin."

/-- Embedding of `disagg_industry` (spatial.py lines 182-184): unconditionally
raises `NotImplementedError`. -/
def disagg_industry : Except String Unit :=
  .error "Not here yet, to be done by TU Berlin."

/-- Claim C10: `create_zve_load_profile`, `disagg_CTS` and `disagg_industry`
unconditionally raise `NotImplementedError` on every call, before performing
any computation or returning any value. -/
theorem claim_C10 :
    (∀ nTsLP : ℕ, create_zve_load_profile nTsLP =
      .error "This function is not ready to use!") ∧
    disagg_CTS = .error "Not here yet, to be done by TU Berlin." ∧
    disagg_industry = .error "Not here yet, to be done by TU Berlin." :=
  ⟨fun _ => rfl, rfl, rfl⟩

/-! ## Temporal disaggregation (temporal.py), rational part -/

/-- The `temp` argument of `disagg_temporal`: either a single time series
shared by all regions (`pd.Series`, `pd.DatetimeIndex`'ed) or one time series
per region (`pd.DataFrame`, NUTS-3-indexed rows, time columns). -/
inductive TempData (ι τ : Type) where
  | series (f : τ → ℚ)
  | frame (f : ι → τ → ℚ)

/-- A returned disaggregation table, tagged by which axis indexes the rows
(`disagg_temporal` returns either orientation depending on `time_indexed`
and on the type of `temp`). -/
inductive DisaggTable (ι τ : Type) where
  | regionRows (f : ι → τ → ℚ)
  | timeRows (f : τ → ι → ℚ)

/-- Embedding of `disagg_temporal` (temporal.py lines 34-72) with the effect
on its arguments made explicit. The value is
`(returned table, spat after the call, temp after the call)`:
in the `pd.Series` branch the statement `temp /= temp.sum()` is an in-place
pandas operation that normalizes the caller's `temp` object, so the final
`temp` is the normalized series; in the `pd.DataFrame` branch
`temp = temp.div(...)` only rebinds the local name, and `spat` is never
mutated (`spat = spat.unstack()` also only rebinds). -/
def disagg_temporal {ι τ : Type} [Fintype τ] (spat : ι → ℚ)
    (temp : TempData ι τ) (time_indexed : Bool) :
    DisaggTable ι τ × (ι → ℚ) × TempData ι τ :=
  match temp with
  | .series f =>
      let fn : τ → ℚ := fun t => f t / ∑ x, f x
      let out : DisaggTable ι τ :=
        if time_indexed then .timeRows (fun t r => fn t * spat r)
        else .regionRows (fun r t => spat r * fn t)
      (out, spat, .series fn)
  | .frame f =>
      let fn : ι → τ → ℚ := fun r t => f r t / ∑ x, f r x
      let out : DisaggTable ι τ :=
        if time_indexed then .regionRows (fun r t => fn r t * spat r)
        else .timeRows (fun t r => fn r t * spat r)
      (out, spat, .frame f)

/-- Sum of a returned table along its time axis, for each region. -/
def tableRegionSums {ι τ : Type} [Fintype τ] : DisaggTable ι τ → ι → ℚ
  | .regionRows f => fun r => ∑ t, f r t
  | .timeRows f => fun r => ∑ t, f t r

/-- The claim's hypothesis on the temporal reference: non-zero total for a
shared series, non-zero per-region row sums for a region-specific frame. -/
def tempSumsNonzero {ι τ : Type} [Fintype τ] : TempData ι τ → Prop
  | .series f => (∑ x, f x) ≠ 0
  | .frame f => ∀ r, (∑ x, f r x) ≠ 0

/-- Claim C1: for every spatial input and every temporal reference with
non-zero (per-region) sums, `disagg_temporal` returns a table whose values
along the time axis sum, for each region `r`, to `spat r` — both for a shared
`pd.Series` reference (normalized by its total) and for a region-specific
`pd.DataFrame` (each row normalized by its own total), and for either value
of `time_indexed`. -/
theorem claim_C1 {ι τ : Type} [Fintype τ] (spat : ι → ℚ) (temp : TempData ι τ)
    (time_indexed : Bool) (h : tempSumsNonzero temp) :
    ∀ r, tableRegionSums (disagg_temporal spat temp time_indexed).1 r = spat r := by
  intro r
  cases temp with
  | series f =>
      have hS : (∑ x, f x) ≠ 0 := h
      cases time_indexed <;>
        simp only [disagg_temporal, tableRegionSums, if_true, if_false,
          Bool.false_eq_true, ← Finset.mul_sum, ← Finset.sum_mul,
          ← Finset.sum_div] <;>
        rw [div_self hS] <;> ring
  | frame f =>
      have hS : (∑ x, f r x) ≠ 0 := h r
      cases time_indexed <;>
        simp only [disagg_temporal, tableRegionSums, if_true, if_false,
          Bool.false_eq_true, ← Finset.sum_mul, ← Finset.sum_div] <;>
        rw [div_self hS] <;> ring

/-- Witness for claim C1: one region holding 5, a shared two-step reference
series (1, 3) with non-zero total; the row sum recovers 5. -/
theorem claim_C1_witness :
    tempSumsNonzero ((TempData.series fun t : Fin 2 => if t = 0 then 1 else 3) :
      TempData (Fin 1) (Fin 2)) ∧
    tableRegionSums (disagg_temporal (fun _ : Fin 1 => (5 : ℚ))
      (.series (fun t : Fin 2 => if t = 0 then 1 else 3)) false).1 0 = 5 := by
  have h : tempSumsNonzero
      ((TempData.series fun t : Fin 2 => if t = 0 then 1 else 3) :
        TempData (Fin 1) (Fin 2)) := by
    show (∑ x : Fin 2, (if x = 0 then (1 : ℚ) else 3)) ≠ 0
    norm_num [Fin.sum_univ_two]
  exact ⟨h, claim_C1 _ _ false h 0⟩

/-- Claim C4 fails on the code: `disagg_temporal` mutates a `pd.Series`
passed as `temp`. At the failing input `spat = {A: 2}`,
`temp = {t0: 1, t1: 3}` the in-place statement `temp /= temp.sum()`
leaves the caller's `temp` holding `(1/4, 3/4)` after the call instead of
the original `(1, 3)`. -/
theorem claim_C4 :
    (disagg_temporal (fun _ : Fin 1 => (2 : ℚ))
        (.series (fun t : Fin 2 => if t = 0 then 1 else 3)) false).2.2 =
      TempData.series (fun t : Fin 2 => (if t = 0 then (1 : ℚ) else 3) / 4) ∧
    (disagg_temporal (fun _ : Fin 1 => (2 : ℚ))
        (.series (fun t : Fin 2 => if t = 0 then 1 else 3)) false).2.2 ≠
      TempData.series (fun t : Fin 2 => if t = 0 then 1 else 3) := by
  constructor
  · show TempData.series _ = _
    congr 1
    funext t
    norm_num [Fin.sum_univ_two]
  · intro hEq
    have h1 : (fun t : Fin 2 => (if t = 0 then (1 : ℚ) else 3) / ∑ x : Fin 2,
        (if x = 0 then (1 : ℚ) else 3)) = fun t : Fin 2 => if t = 0 then 1 else 3 := by
      injection hEq
    have h2 := congrFun h1 0
    norm_num [Fin.sum_univ_two] at h2

/-! ## Solar utilities (temporal.py), real-valued part

The trigonometric helper `getSunsetSunrise` (temporal.py lines 190-240) and
`probability_light_needed` (lines 243-306) are embedded over `ℝ`. The one
fallible step is `math.acos(time_diff_arg)`: Python's `math.acos` raises a
`ValueError` (math domain error) when its argument lies outside `[-1, 1]`,
and since the code clamps the argument from above by `min(time_diff_arg, 1.)`
this happens exactly when the unclamped argument is below `-1`. -/

noncomputable section

open Real

/-- Elevation angle in degrees at which electric light is needed
(temporal.py line 221). -/
def light_h : ℝ := 12

/-- `sunset_h = light_h / (180 / math.pi)` (temporal.py line 223). -/
def sunset_h : ℝ := light_h / (180 / π)

/-- Latitude in radians, `B = math.pi * lat / 180` (temporal.py line 212). -/
def B (lat : ℝ) : ℝ := π * lat / 180

/-- Solar declination approximation (temporal.py line 213). -/
def declination_sun (doy : ℝ) : ℝ := 0.4095 * sin (0.016906 * (doy - 80.086))

/-- Unclamped argument handed to `math.acos` (temporal.py lines 225-227). -/
def time_diff_arg_raw (doy lat : ℝ) : ℝ :=
  (sin sunset_h - sin (B lat) * sin (declination_sun doy)) /
    (cos (B lat) * cos (declination_sun doy))

/-- Argument after the clamp `time_diff_arg = min(time_diff_arg, 1.)`
(temporal.py line 228). -/
def time_diff_arg (doy lat : ℝ) : ℝ := min (time_diff_arg_raw doy lat) 1

/-- Half daylight duration `12 * math.acos(time_diff_arg) / math.pi`
(temporal.py line 229). -/
def time_diff (doy lat : ℝ) : ℝ := 12 * arccos (time_diff_arg doy lat) / π

/-- Equation of time (temporal.py lines 230-231). -/
def time_equation (doy : ℝ) : ℝ :=
  -0.171 * sin (0.0337 * doy + 0.465) - 0.1299 * sin (0.01787 * doy - 0.168)

/-- Difference between mean local time and the MEZ/MESZ zone time
(temporal.py line 236). -/
def MOZ_MEZ_diff (lon UTC_diff : ℝ) : ℝ := -lon / 15.0 + UTC_diff

/-- Sunset in zone time (temporal.py lines 233, 238). -/
def sunset_time (doy lat lon UTC_diff : ℝ) : ℝ :=
  12 + time_diff doy lat - time_equation doy + MOZ_MEZ_diff lon UTC_diff

/-- Sunrise in zone time (temporal.py lines 234, 239). -/
def sunrise_time (doy lat lon UTC_diff : ℝ) : ℝ :=
  12 - time_diff doy lat - time_equation doy + MOZ_MEZ_diff lon UTC_diff

/-- Embedding of `getSunsetSunrise` (temporal.py lines 190-240), returning
`(sunset, sunrise)`; `none` models the `math.acos` domain error. -/
def getSunsetSunrise (doy lat lon UTC_diff : ℝ) : Option (ℝ × ℝ) :=
  if time_diff_arg doy lat < -1 then none
  else some (sunset_time doy lat lon UTC_diff, sunrise_time doy lat lon UTC_diff)

/-! Auxiliary bounds shared by the solar claims. -/

lemma sunset_h_eq : sunset_h = π / 15 := by
  rw [sunset_h, light_h, div_div_eq_mul_div]
  ring

lemma declination_abs_le (doy : ℝ) : |declination_sun doy| ≤ 0.4095 := by
  rw [declination_sun, abs_mul]
  have h := abs_sin_le_one (0.016906 * (doy - 80.086))
  rw [abs_of_pos (by norm_num : (0.4095 : ℝ) > 0)]
  nlinarith

lemma sin_declination_le (doy : ℝ) : sin (declination_sun doy) ≤ 0.4095 := by
  have h := declination_abs_le doy
  have h2 := abs_sin_le_abs (x := declination_sun doy)
  have h3 := le_abs_self (sin (declination_sun doy))
  linarith

lemma neg_le_sin_declination (doy : ℝ) : -0.4095 ≤ sin (declination_sun doy) := by
  have h := declination_abs_le doy
  have h2 := abs_sin_le_abs (x := declination_sun doy)
  have h3 := neg_abs_le (sin (declination_sun doy))
  linarith

lemma cos_declination_ge (doy : ℝ) : 0.916154 ≤ cos (declination_sun doy) := by
  have h := declination_abs_le doy
  have h1 := @one_sub_sq_div_two_le_cos (declination_sun doy)
  have h2 : (declination_sun doy) ^ 2 ≤ 0.4095 ^ 2 := by
    have := abs_le.mp h
    nlinarith
  nlinarith

lemma cos_declination_pos (doy : ℝ) : 0 < cos (declination_sun doy) := by
  have := cos_declination_ge doy
  linarith

lemma sin_sunset_h_nonneg : 0 ≤ sin sunset_h := by
  rw [sunset_h_eq]
  have h := pi_pos
  exact sin_nonneg_of_nonneg_of_le_pi (by positivity) (by linarith)

lemma sin_sunset_h_le : sin sunset_h ≤ 0.2094396 := by
  rw [sunset_h_eq]
  have h1 : sin (π / 15) ≤ π / 15 := sin_le (by positivity)
  have h2 := pi_lt_d6
  linarith

/-- Claim C7: whenever `getSunsetSunrise` returns, the pair satisfies
`sunset - sunrise = 2 * (12 * acos(time_diff_arg) / pi)` with the `acos`
value in `[0, pi]`, hence `sunrise <= sunset` and the daylight duration is
at most 24 hours; both times are placed symmetrically around
`12 - time_equation` shifted by `-lon/15 + UTC_diff`. -/
theorem claim_C7 (doy lat lon utc ss sr : ℝ)
    (h : getSunsetSunrise doy lat lon utc = some (ss, sr)) :
    ss - sr = 2 * (12 * arccos (time_diff_arg doy lat) / π) ∧
    0 ≤ arccos (time_diff_arg doy lat) ∧
    arccos (time_diff_arg doy lat) ≤ π ∧
    sr ≤ ss ∧ ss - sr ≤ 24 ∧
    ss + sr = 2 * (12 - time_equation doy + MOZ_MEZ_diff lon utc) := by
  rw [getSunsetSunrise] at h
  by_cases hc : time_diff_arg doy lat < -1
  · rw [if_pos hc] at h
    exact absurd h (by simp)
  · rw [if_neg hc] at h
    simp only [Option.some.injEq, Prod.mk.injEq] at h
    obtain ⟨h1, h2⟩ := h
    subst h1
    subst h2
    have ha0 : 0 ≤ arccos (time_diff_arg doy lat) := arccos_nonneg _
    have haπ : arccos (time_diff_arg doy lat) ≤ π := arccos_le_pi _
    have hπ := pi_pos
    have htd0 : 0 ≤ time_diff doy lat := by
      rw [time_diff]
      positivity
    have htd12 : time_diff doy lat ≤ 12 := by
      rw [time_diff, div_le_iff hπ]
      nlinarith
    refine ⟨?_, ha0, haπ, ?_, ?_, ?_⟩
    · rw [sunset_time, sunrise_time, time_diff]
      ring
    · rw [sunset_time, sunrise_time]
      linarith
    · rw [sunset_time, sunrise_time]
      linarith
    · rw [sunset_time, sunrise_time]
      ring

/-- Witness for claim C7 on the equator at day 0 (`lat = 0`, where the
`acos` argument is non-negative, so the function returns). -/
theorem claim_C7_witness :
    getSunsetSunrise 0 0 0 0 = some (sunset_time 0 0 0 0, sunrise_time 0 0 0 0) ∧
    (sunset_time 0 0 0 0 - sunrise_time 0 0 0 0 =
      2 * (12 * arccos (time_diff_arg 0 0) / π) ∧
    0 ≤ arccos (time_diff_arg 0 0) ∧
    arccos (time_diff_arg 0 0) ≤ π ∧
    sunrise_time 0 0 0 0 ≤ sunset_time 0 0 0 0 ∧
    sunset_time 0 0 0 0 - sunrise_time 0 0 0 0 ≤ 24 ∧
    sunset_time 0 0 0 0 + sunrise_time 0 0 0 0 =
      2 * (12 - time_equation 0 + MOZ_MEZ_diff 0 0)) := by
  have hB0 : B 0 = 0 := by
    rw [B]
    ring
  have hraw : 0 ≤ time_diff_arg_raw 0 0 := by
    rw [time_diff_arg_raw, hB0, Real.sin_zero, Real.cos_zero]
    rw [zero_mul, sub_zero, one_mul]
    exact div_nonneg sin_sunset_h_nonneg (cos_declination_pos 0).le
  have hminOk : ¬ time_diff_arg 0 0 < -1 := by
    rw [time_diff_arg]
    push_neg
    exact le_min (by linarith) (by norm_num)
  have hsome : getSunsetSunrise 0 0 0 0 =
      some (sunset_time 0 0 0 0, sunrise_time 0 0 0 0) := by
    rw [getSunsetSunrise, if_neg hminOk]
  exact ⟨hsome, claim_C7 0 0 0 0 _ _ hsome⟩

/-- Claim C8: the clamp bounds the `acos` argument only from above; whenever
the raw argument drops below `-1` the `math.acos` call fails with a domain
error, so `getSunsetSunrise` is not total over all latitude/day inputs. -/
theorem claim_C8 (doy lat lon utc : ℝ) (h : time_diff_arg_raw doy lat < -1) :
    getSunsetSunrise doy lat lon utc = none := by
  rw [getSunsetSunrise, if_pos]
  exact lt_of_le_of_lt (min_le_left _ _) h

lemma sqrt_three_lo : (1.732 : ℝ) ≤ Real.sqrt 3 := by
  nlinarith [Real.sq_sqrt (show (0 : ℝ) ≤ 3 by norm_num), Real.sqrt_nonneg 3]

lemma sin_arg_173 : Real.sqrt 3 / 2 ≤ sin 1.570804084 := by
  have pi1 : (3.141592 : ℝ) < π := pi_gt_d6
  have pi2 : π < 3.141593 := pi_lt_d6
  have h1 : sin (1.570804084 : ℝ) = sin (π - 1.570804084) := (sin_pi_sub _).symm
  rw [h1, ← sin_pi_div_three]
  refine strictMonoOn_sin.monotoneOn ?_ ?_ ?_
  · rw [Set.mem_Icc]
    exact ⟨by linarith [pi_pos], by linarith [pi_pos]⟩
  · rw [Set.mem_Icc]
    exact ⟨by linarith, by linarith⟩
  · linarith

lemma decl_173 : declination_sun 173 = 0.4095 * sin 1.570804084 := by
  rw [declination_sun]
  norm_num

/-- At day-of-year 173 and latitude 89.9 (polar summer) the unclamped
`acos` argument is below `-1`. -/
lemma time_diff_arg_raw_polar : time_diff_arg_raw 173 89.9 < -1 := by
  have pi1 : (3.141592 : ℝ) < π := pi_gt_d6
  have pi2 : π < 3.141593 := pi_lt_d6
  have hs3lo := sqrt_three_lo
  have hsin3 := sin_arg_173
  have hsin1 : sin (1.570804084 : ℝ) ≤ 1 := sin_le_one _
  have hdeq := decl_173
  set d : ℝ := declination_sun 173 with hd
  have hd_lo : (0.354627 : ℝ) ≤ d := by
    rw [hdeq]
    nlinarith
  have hd_hi : d ≤ 0.4095 := by
    rw [hdeq]
    nlinarith
  have hB : B 89.9 = π * 89.9 / 180 := rfl
  have hB_lo : (1.5690506 : ℝ) ≤ B 89.9 := by
    rw [hB]
    linarith
  have hB_hi : B 89.9 ≤ 1.5690512 := by
    rw [hB]
    linarith
  have hBhalf : B 89.9 < π / 2 := by
    rw [hB]
    linarith [pi_pos]
  have hcosB : 0 < cos (B 89.9) :=
    cos_pos_of_mem_Ioo (Set.mem_Ioo.mpr ⟨by linarith [pi_pos], hBhalf⟩)
  have hcosd : 0 < cos d := cos_declination_pos 173
  have hden : 0 < cos (B 89.9) * cos d := mul_pos hcosB hcosd
  rw [time_diff_arg_raw, div_lt_iff hden]
  have hadd : cos (B 89.9 + d) = cos (B 89.9) * cos d - sin (B 89.9) * sin d :=
    cos_add _ _
  have hsum_lo : (1.9236 : ℝ) ≤ B 89.9 + d := by linarith
  have hsum_hi : B 89.9 + d ≤ π := by linarith
  have hmono : cos (B 89.9 + d) ≤ cos 1.9236 := by
    refine strictAntiOn_cos.antitoneOn ?_ ?_ hsum_lo
    · rw [Set.mem_Icc]
      exact ⟨by norm_num, by linarith⟩
    · rw [Set.mem_Icc]
      exact ⟨by linarith, hsum_hi⟩
  have hid : cos (1.9236 : ℝ) = -sin (1.9236 - π / 2) := by
    rw [← sin_pi_div_two_sub, show π / 2 - (1.9236 : ℝ) = -(1.9236 - π / 2) by ring,
      sin_neg]
  have hlt : sin (π / 15) < sin (1.9236 - π / 2) := by
    refine strictMonoOn_sin ?_ ?_ ?_
    · rw [Set.mem_Icc]
      exact ⟨by linarith [pi_pos], by linarith [pi_pos]⟩
    · rw [Set.mem_Icc]
      exact ⟨by linarith, by linarith⟩
    · linarith
  rw [sunset_h_eq]
  linarith

/-- Witness for claim C8: at `doy = 173`, `lat = 89.9` the raw argument is
below `-1` and `getSunsetSunrise` fails (returns `none`). -/
theorem claim_C8_witness :
    time_diff_arg_raw 173 89.9 < -1 ∧ getSunsetSunrise 173 89.9 0 2 = none :=
  ⟨time_diff_arg_raw_polar, claim_C8 173 89.9 0 2 time_diff_arg_raw_polar⟩

end

/-! ### probability_light_needed (temporal.py lines 243-306)

Static calendar data for the year 2012 and the loop structure of the
function. A season's contribution to `p_night[i, season_id]` is, per day,
`add = 1/iadd` for the numpy slice `p_night[0:NEnd]` (before sunrise) and
again `add` for `p_night[NBeg:nTsLP]` (after sunset), where `NEnd`/`NBeg`
are obtained with Python's `int()` (truncation towards zero) and numpy's
basic slicing semantics (negative bounds count from the end, then the
range is clamped to `[0, n]`). -/

/-- `month_lengths` for 2012 (temporal.py line 263). -/
def month_lengths : List ℕ := [31, 29, 31, 30, 31, 30, 31, 31, 30, 31, 30, 31]

/-- Length of month `m` (1-based, `month_lengths[m-1]`). -/
def month_length (m : ℕ) : ℕ := month_lengths.getD (m - 1) 0

/-- `month_first_day[m-1]`, the day-of-year before the first day of month
`m` (temporal.py line 264: `[0] + cumsum(month_lengths[:-1])`). -/
def month_first_day (m : ℕ) : ℕ := (month_lengths.take (m - 1)).sum

/-- The day-of-year values the inner loop of `probability_light_needed`
produces for month `m` (`doy = month_first_day[m-1]` then `doy += 1` at the
top of each iteration). -/
def month_days (m : ℕ) : List ℕ :=
  (List.range (month_length m)).map (fun d => month_first_day m + d + 1)

/-- `season_months` (temporal.py lines 271-273), by season id
(0 = Winter, 1 = Transition, 2 = Summer). -/
def season_months : ℕ → List ℕ
  | 0 => [1, 2, 3, 11, 12]
  | 1 => [4, 9, 10]
  | 2 => [5, 6, 7, 8]
  | _ => []

/-- All day-of-year values iterated for a season. -/
def season_days (sid : ℕ) : List ℕ := (season_months sid).bind month_days

/-- `iadd`, the number of days in the season (temporal.py lines 282-284). -/
def season_count (sid : ℕ) : ℕ := ((season_months sid).map month_length).sum

/-- Normalisation of a numpy basic-slice bound for an array of length `n`:
a negative bound counts from the end, then the result is clamped to
`[0, n]`. -/
def slice_clip (v : ℤ) (n : ℕ) : ℤ :=
  if v < 0 then max (v + n) 0 else min v n

/-- Membership of index `i` in the numpy slice `[a:b]` of a length-`n`
axis. -/
def slice_mem (a b : ℤ) (n : ℕ) (i : ℕ) : Bool :=
  decide (slice_clip a n ≤ (i : ℤ)) && decide ((i : ℤ) < slice_clip b n)

noncomputable section

open Real

/-- Python's `int()` on a float: truncation towards zero. -/
def pyInt (x : ℝ) : ℤ := if 0 ≤ x then ⌊x⌋ else ⌈x⌉

/-- `hoursBeforeSunset = 0.0` (temporal.py line 269). -/
def hoursBeforeSunset : ℝ := 0.0

/-- `UTC_diff` for day-of-year `doy` in 2012 (temporal.py lines 293-294):
`timezone + min(max(doy-SummerTimeBegin,0),1) - min(max(doy-WinterTimeBegin,0),1)`
with `timezone = 1`, `SummerTimeBegin = 87`, `WinterTimeBegin = 301`. -/
def UTC_diff_2012 (doy : ℝ) : ℝ :=
  1 + min (max (doy - 87) 0) 1 - min (max (doy - 301) 0) 1

/-- `NEnd = int((sunrise+hoursBeforeSunset)*TsH)` (temporal.py line 301);
Python's `int()` truncates towards zero. -/
def NEnd_idx (lat lon : ℝ) (nTsLP : ℕ) (doy : ℕ) : ℤ :=
  pyInt ((sunrise_time (doy : ℝ) lat lon (UTC_diff_2012 (doy : ℝ)) +
    hoursBeforeSunset) * ((nTsLP : ℝ) / 24))

/-- `NBeg = int((sunset-hoursBeforeSunset)*TsH+0.999)` (temporal.py
line 302). -/
def NBeg_idx (lat lon : ℝ) (nTsLP : ℕ) (doy : ℕ) : ℤ :=
  pyInt ((sunset_time (doy : ℝ) lat lon (UTC_diff_2012 (doy : ℝ)) -
    hoursBeforeSunset) * ((nTsLP : ℝ) / 24) + 0.999)

/-- `add = 1./float(iadd)` (temporal.py line 285). -/
def add_frac (sid : ℕ) : ℝ := 1 / (season_count sid : ℝ)

/-- Contribution of one day to entry `i` of the season's column of
`p_night`: `add` if `i` lies in the before-sunrise slice `[0:NEnd]`, plus
`add` if `i` lies in the after-sunset slice `[NBeg:nTsLP]`. -/
def day_weight (lat lon : ℝ) (nTsLP : ℕ) (sid doy i : ℕ) : ℝ :=
  (if slice_mem 0 (NEnd_idx lat lon nTsLP doy) nTsLP i then add_frac sid else 0) +
  (if slice_mem (NBeg_idx lat lon nTsLP doy) (nTsLP : ℤ) nTsLP i then add_frac sid
    else 0)

/-- Entry `(i, sid)` of the accumulated `p_night` array. -/
def p_night (lat lon : ℝ) (nTsLP : ℕ) (i sid : ℕ) : ℝ :=
  ((season_days sid).map (fun doy => day_weight lat lon nTsLP sid doy i)).sum

open Classical in
/-- Embedding of `probability_light_needed` (temporal.py lines 243-306):
the loops call `getSunsetSunrise` for every day of every season, so the
function returns only if the `acos` argument stays at least `-1` on every
iterated day; the returned array is indexed by (time step, season id). -/
def probability_light_needed (lat lon : ℝ) (nTsLP : ℕ) : Option (ℕ → ℕ → ℝ) :=
  if ∀ sid ∈ ([0, 1, 2] : List ℕ), ∀ doy ∈ season_days sid,
      -1 ≤ time_diff_arg_raw (doy : ℝ) lat
  then some (fun i sid => p_night lat lon nTsLP i sid)
  else none

/-! Numeric facts at latitude 60 (counterexample coordinates for the
probability-curve claim). -/

lemma sqrt_three_hi : Real.sqrt 3 ≤ 1.7320509 := by
  nlinarith [Real.sq_sqrt (show (0 : ℝ) ≤ 3 by norm_num), Real.sqrt_nonneg 3]

lemma B_60 : B 60 = π / 3 := by
  rw [B]
  ring

lemma raw_at_60 (doy : ℝ) : time_diff_arg_raw doy 60 =
    (sin sunset_h - Real.sqrt 3 / 2 * sin (declination_sun doy)) /
      (1 / 2 * cos (declination_sun doy)) := by
  rw [time_diff_arg_raw, B_60, sin_pi_div_three, cos_pi_div_three]

lemma sqrt3_mul_sin_le (doy : ℝ) :
    Real.sqrt 3 / 2 * sin (declination_sun doy) ≤ 0.3546375 := by
  have hs3hi := sqrt_three_hi
  have hs3nn := Real.sqrt_nonneg 3
  have hsd := sin_declination_le doy
  rcases le_or_lt 0 (sin (declination_sun doy)) with hpos | hneg
  · nlinarith [mul_le_mul hs3hi hsd hpos (by norm_num : (0 : ℝ) ≤ 1.7320509)]
  · nlinarith

lemma raw_ge_at_60 (doy : ℝ) : -1 ≤ time_diff_arg_raw doy 60 := by
  have hcosd := cos_declination_ge doy
  have hden : (0 : ℝ) < 1 / 2 * cos (declination_sun doy) := by linarith
  rw [raw_at_60, le_div_iff hden]
  have hssh := sin_sunset_h_nonneg
  have hprod := sqrt3_mul_sin_le doy
  nlinarith

lemma prob_60_180_some :
    probability_light_needed 60 180 96 =
      some (fun i sid => p_night 60 180 96 i sid) := by
  have hcond : ∀ sid ∈ ([0, 1, 2] : List ℕ), ∀ doy ∈ season_days sid,
      -1 ≤ time_diff_arg_raw (doy : ℝ) 60 :=
    fun _ _ doy _ => raw_ge_at_60 (doy : ℝ)
  rw [probability_light_needed, if_pos hcond]

lemma time_equation_bounds (doy : ℝ) :
    -0.3009 ≤ time_equation doy ∧ time_equation doy ≤ 0.3009 := by
  rw [time_equation]
  have h1 := neg_one_le_sin (0.0337 * doy + 0.465)
  have h2 := sin_le_one (0.0337 * doy + 0.465)
  have h3 := neg_one_le_sin (0.01787 * doy - 0.168)
  have h4 := sin_le_one (0.01787 * doy - 0.168)
  constructor <;> linarith

lemma arccos_le_arccos_of_le {a b : ℝ} (ha : -1 ≤ a) (hb : b ≤ 1)
    (hab : a ≤ b) : arccos b ≤ arccos a := by
  refine strictAntiOn_arccos.antitoneOn ?_ ?_ hab
  · rw [Set.mem_Icc]
    exact ⟨ha, hab.trans hb⟩
  · rw [Set.mem_Icc]
    exact ⟨ha.trans hab, hb⟩

lemma cos_ninetenths : (0.458 : ℝ) ≤ cos 0.9 := by
  have h := @one_sub_sq_div_two_le_cos (0.9 : ℝ)
  norm_num at h
  linarith

lemma cos_sixtyseven : (0.775 : ℝ) ≤ cos 0.67 := by
  have h := @one_sub_sq_div_two_le_cos (0.67 : ℝ)
  norm_num at h
  linarith

set_option maxHeartbeats 1600000 in
/-- Uniform daylight-duration bounds over the summer days (doy 122-244) at
latitude 60: `time_diff` stays within `[3.437, 9.441]` hours. -/
lemma summer_td_bounds (doy : ℕ) (h1 : 122 ≤ doy) (h2 : doy ≤ 244) :
    (3.437 : ℝ) ≤ time_diff (doy : ℝ) 60 ∧ time_diff (doy : ℝ) 60 ≤ 9.441 := by
  have hcast1 : (122 : ℝ) ≤ (doy : ℝ) := by exact_mod_cast h1
  have hcast2 : ((doy : ℝ)) ≤ 244 := by exact_mod_cast h2
  have pi1 : (3.141592 : ℝ) < π := pi_gt_d6
  have pi2 : π < 3.141593 := pi_lt_d6
  have hπ := pi_pos
  have hx_lo : (0.7 : ℝ) ≤ 0.016906 * ((doy : ℝ) - 80.086) := by linarith
  have hx_hi : 0.016906 * ((doy : ℝ) - 80.086) ≤ 2.7712 := by linarith
  have hsx0 : 0 ≤ sin (0.016906 * ((doy : ℝ) - 80.086)) :=
    sin_nonneg_of_nonneg_of_le_pi (by linarith) (by linarith)
  have hsx1 : sin (0.016906 * ((doy : ℝ) - 80.086)) ≤ 1 := sin_le_one _
  have hd_eq : declination_sun (doy : ℝ) =
      0.4095 * sin (0.016906 * ((doy : ℝ) - 80.086)) := rfl
  have hd0 : 0 ≤ declination_sun (doy : ℝ) := by
    rw [hd_eq]
    nlinarith
  have hd1 : declination_sun (doy : ℝ) ≤ 0.4095 := by
    rw [hd_eq]
    nlinarith
  have hsind0 : 0 ≤ sin (declination_sun (doy : ℝ)) :=
    sin_nonneg_of_nonneg_of_le_pi hd0 (by linarith)
  have hsind1 : sin (declination_sun (doy : ℝ)) ≤ 0.4095 :=
    (sin_le hd0).trans hd1
  have hcosd_lo := cos_declination_ge (doy : ℝ)
  have hcosd_hi : cos (declination_sun (doy : ℝ)) ≤ 1 := cos_le_one _
  have hden_pos : (0 : ℝ) < 1 / 2 * cos (declination_sun (doy : ℝ)) := by
    linarith
  have hprod_hi := sqrt3_mul_sin_le (doy : ℝ)
  have hprod_lo : 0 ≤ Real.sqrt 3 / 2 * sin (declination_sun (doy : ℝ)) := by
    positivity
  have hraw_hi : time_diff_arg_raw (doy : ℝ) 60 ≤ 0.458 := by
    rw [raw_at_60, div_le_iff hden_pos]
    have hssh := sin_sunset_h_le
    nlinarith
  have hraw_lo : (-0.775 : ℝ) ≤ time_diff_arg_raw (doy : ℝ) 60 := by
    rw [raw_at_60, le_div_iff hden_pos]
    have hssh := sin_sunset_h_nonneg
    nlinarith
  have harg : time_diff_arg (doy : ℝ) 60 = time_diff_arg_raw (doy : ℝ) 60 :=
    min_eq_left (by linarith)
  have ha_lo : (0.9 : ℝ) ≤ arccos (time_diff_arg (doy : ℝ) 60) := by
    rw [harg]
    have hmono := arccos_le_arccos_of_le
      (by linarith : (-1 : ℝ) ≤ time_diff_arg_raw (doy : ℝ) 60)
      (cos_le_one 0.9) (by linarith [cos_ninetenths])
    rw [arccos_cos (by norm_num) (by linarith)] at hmono
    exact hmono
  have ha_hi : arccos (time_diff_arg (doy : ℝ) 60) ≤ π - 0.67 := by
    rw [harg]
    have hmono := arccos_le_arccos_of_le (by norm_num : (-1 : ℝ) ≤ -0.775)
      (by linarith : time_diff_arg_raw (doy : ℝ) 60 ≤ 1) hraw_lo
    have hneg : arccos (-0.775 : ℝ) = π - arccos 0.775 := by
      rw [show (-0.775 : ℝ) = -(0.775 : ℝ) by norm_num, arccos_neg]
    have h067 : (0.67 : ℝ) ≤ arccos 0.775 := by
      have hmono2 := arccos_le_arccos_of_le
        (by norm_num : (-1 : ℝ) ≤ (0.775 : ℝ)) (cos_le_one 0.67)
        (by linarith [cos_sixtyseven])
      rw [arccos_cos (by norm_num) (by linarith)] at hmono2
      exact hmono2
    linarith
  constructor
  · rw [time_diff, le_div_iff hπ]
    linarith
  · rw [time_diff, div_le_iff hπ]
    linarith

lemma UTC_summer (doy : ℕ) (h1 : 122 ≤ doy) (h2 : doy ≤ 244) :
    UTC_diff_2012 (doy : ℝ) = 2 := by
  have ha : (122 : ℝ) ≤ (doy : ℝ) := by exact_mod_cast h1
  have hb : ((doy : ℝ)) ≤ 244 := by exact_mod_cast h2
  rw [UTC_diff_2012,
    max_eq_left (by linarith : (0 : ℝ) ≤ (doy : ℝ) - 87),
    min_eq_right (by linarith : (1 : ℝ) ≤ (doy : ℝ) - 87),
    max_eq_right (by linarith : (doy : ℝ) - 301 ≤ 0),
    min_eq_left (by norm_num : (0 : ℝ) ≤ 1)]
  norm_num

lemma sunrise_summer_bounds (doy : ℕ) (h1 : 122 ≤ doy) (h2 : doy ≤ 244) :
    (-7.7419 : ℝ) ≤ sunrise_time (doy : ℝ) 60 180 (UTC_diff_2012 (doy : ℝ)) ∧
    sunrise_time (doy : ℝ) 60 180 (UTC_diff_2012 (doy : ℝ)) ≤ -1.1361 := by
  obtain ⟨htd1, htd2⟩ := summer_td_bounds doy h1 h2
  obtain ⟨he1, he2⟩ := time_equation_bounds (doy : ℝ)
  rw [UTC_summer doy h1 h2, sunrise_time, MOZ_MEZ_diff]
  constructor <;> [nlinarith; nlinarith]

lemma sunset_summer_bounds (doy : ℕ) (h1 : 122 ≤ doy) (h2 : doy ≤ 244) :
    (5.1361 : ℝ) ≤ sunset_time (doy : ℝ) 60 180 (UTC_diff_2012 (doy : ℝ)) ∧
    sunset_time (doy : ℝ) 60 180 (UTC_diff_2012 (doy : ℝ)) ≤ 11.7419 := by
  obtain ⟨htd1, htd2⟩ := summer_td_bounds doy h1 h2
  obtain ⟨he1, he2⟩ := time_equation_bounds (doy : ℝ)
  rw [UTC_summer doy h1 h2, sunset_time, MOZ_MEZ_diff]
  constructor <;> [nlinarith; nlinarith]

lemma NEnd_summer (doy : ℕ) (h1 : 122 ≤ doy) (h2 : doy ≤ 244) :
    -30 ≤ NEnd_idx 60 180 96 doy ∧ NEnd_idx 60 180 96 doy ≤ -4 := by
  obtain ⟨hs1, hs2⟩ := sunrise_summer_bounds doy h1 h2
  rw [NEnd_idx]
  have hval : (sunrise_time (doy : ℝ) 60 180 (UTC_diff_2012 (doy : ℝ)) +
      hoursBeforeSunset) * (((96 : ℕ) : ℝ) / 24) =
      sunrise_time (doy : ℝ) 60 180 (UTC_diff_2012 (doy : ℝ)) * 4 := by
    rw [hoursBeforeSunset]
    push_cast
    ring
  rw [hval, pyInt, if_neg (by push_neg; nlinarith)]
  constructor
  · have h31 : ((-31 : ℤ) : ℝ) <
        sunrise_time (doy : ℝ) 60 180 (UTC_diff_2012 (doy : ℝ)) * 4 := by
      push_cast
      nlinarith
    have := Int.lt_ceil.mpr h31
    omega
  · refine Int.ceil_le.mpr ?_
    push_cast
    nlinarith

lemma NBeg_summer (doy : ℕ) (h1 : 122 ≤ doy) (h2 : doy ≤ 244) :
    21 ≤ NBeg_idx 60 180 96 doy ∧ NBeg_idx 60 180 96 doy ≤ 47 := by
  obtain ⟨hs1, hs2⟩ := sunset_summer_bounds doy h1 h2
  rw [NBeg_idx]
  have hval : (sunset_time (doy : ℝ) 60 180 (UTC_diff_2012 (doy : ℝ)) -
      hoursBeforeSunset) * (((96 : ℕ) : ℝ) / 24) + 0.999 =
      sunset_time (doy : ℝ) 60 180 (UTC_diff_2012 (doy : ℝ)) * 4 + 0.999 := by
    rw [hoursBeforeSunset]
    push_cast
    ring
  rw [hval, pyInt, if_pos (by nlinarith)]
  constructor
  · refine Int.le_floor.mpr ?_
    push_cast
    nlinarith
  · have h48 : sunset_time (doy : ℝ) 60 180 (UTC_diff_2012 (doy : ℝ)) * 4 +
        0.999 < ((48 : ℤ) : ℝ) := by
      push_cast
      nlinarith
    have := Int.floor_lt.mpr h48
    omega

lemma summer_day_weight (doy : ℕ) (h1 : 122 ≤ doy) (h2 : doy ≤ 244) :
    day_weight 60 180 96 2 doy 50 = 2 / 123 := by
  obtain ⟨hne1, hne2⟩ := NEnd_summer doy h1 h2
  obtain ⟨hnb1, hnb2⟩ := NBeg_summer doy h1 h2
  have hm1 : slice_mem 0 (NEnd_idx 60 180 96 doy) 96 50 = true := by
    rw [slice_mem]
    simp only [Bool.and_eq_true, decide_eq_true_eq]
    constructor
    · rw [slice_clip, if_neg (by norm_num : ¬((0 : ℤ) < 0))]
      norm_num
    · rw [slice_clip, if_pos (by omega : NEnd_idx 60 180 96 doy < 0)]
      rw [max_eq_left (by omega : (0 : ℤ) ≤ NEnd_idx 60 180 96 doy + (96 : ℕ))]
      omega
  have hm2 : slice_mem (NBeg_idx 60 180 96 doy) ((96 : ℕ) : ℤ) 96 50 = true := by
    rw [slice_mem]
    simp only [Bool.and_eq_true, decide_eq_true_eq]
    constructor
    · rw [slice_clip, if_neg (by omega : ¬(NBeg_idx 60 180 96 doy < 0))]
      rw [min_eq_left (by omega : NBeg_idx 60 180 96 doy ≤ ((96 : ℕ) : ℤ))]
      omega
    · rw [slice_clip, if_neg (by omega : ¬(((96 : ℕ) : ℤ) < 0))]
      simp only [min_self]
      omega
  have hsc : season_count 2 = 123 := by decide
  rw [day_weight, hm1, hm2]
  simp only [if_true]
  rw [add_frac, hsc]
  norm_num

lemma list_sum_map_const {α : Type} (l : List α) (f : α → ℝ) (c : ℝ)
    (h : ∀ x ∈ l, f x = c) : (l.map f).sum = l.length * c := by
  induction l with
  | nil => simp
  | cons a t ih =>
      simp only [List.map_cons, List.sum_cons, List.length_cons]
      rw [h a (List.mem_cons_self a t),
        ih (fun x hx => h x (List.mem_cons_of_mem a hx))]
      push_cast
      ring

lemma list_sum_map_le {α : Type} (l : List α) (f : α → ℝ) (c : ℝ)
    (h : ∀ x ∈ l, f x ≤ c) : (l.map f).sum ≤ l.length * c := by
  induction l with
  | nil => simp
  | cons a t ih =>
      simp only [List.map_cons, List.sum_cons, List.length_cons]
      have ha := h a (List.mem_cons_self a t)
      have ht := ih (fun x hx => h x (List.mem_cons_of_mem a hx))
      push_cast
      linarith

set_option maxRecDepth 10000 in
lemma season_days_two_range : ∀ doy ∈ season_days 2, 122 ≤ doy ∧ doy ≤ 244 := by
  decide

set_option maxRecDepth 10000 in
lemma season_days_two_length : (season_days 2).length = 123 := by
  decide

set_option maxRecDepth 10000 in
lemma season_days_length (sid : ℕ) :
    (season_days sid).length = season_count sid := by
  match sid with
  | 0 => decide
  | 1 => decide
  | 2 => decide
  | (n + 3) => rfl

lemma p_night_60_180 : p_night 60 180 96 50 2 = 2 := by
  rw [p_night, list_sum_map_const (season_days 2) _ (2 / 123)
    (fun doy hdoy => summer_day_weight doy (season_days_two_range doy hdoy).1
      (season_days_two_range doy hdoy).2), season_days_two_length]
  norm_num

/-- Claim C6 fails: at `lat = 60`, `lon = 180`, `nTsLP = 96` the function
returns, yet entry `(50, 2)` of the returned array equals 2. There the local
"sunrise" is negative for every summer day, so the before-sunrise slice
`p_night[0:NEnd]` has a negative bound and wraps around, overlapping the
after-sunset slice `p_night[NBeg:96]`: index 50 is incremented twice on each
of the 123 summer days, accumulating `123 * (2/123) = 2 > 1`, so the array
is not a probability curve. -/
theorem claim_C6_counterexample :
    probability_light_needed 60 180 96 =
      some (fun i sid => p_night 60 180 96 i sid) ∧
    p_night 60 180 96 50 2 = 2 ∧ ¬p_night 60 180 96 50 2 ≤ 1 := by
  refine ⟨prob_60_180_some, p_night_60_180, ?_⟩
  rw [p_night_60_180]
  norm_num

/-- Claim C6, amended: whenever `probability_light_needed` returns, every
entry of the returned array lies in `[0, 2]`. Each day of a season adds
exactly `1/(number of days in that season)` to the before-sunrise and to the
after-sunset slice, but the two slices need not be disjoint (a negative
sunrise makes the before-sunrise bound wrap around), so an entry can be
incremented twice per day; the bound `1` claimed for every entry fails in
general, while `2` always holds (and `[0, 1]` does hold when the two slices
stay disjoint on every day, as at German coordinates). -/
theorem claim_C6_amended (lat lon : ℝ) (n : ℕ) (f : ℕ → ℕ → ℝ)
    (h : probability_light_needed lat lon n = some f) (i sid : ℕ) :
    0 ≤ f i sid ∧ f i sid ≤ 2 := by
  have hf : f = fun i sid => p_night lat lon n i sid := by
    rw [probability_light_needed] at h
    by_cases hc : ∀ s ∈ ([0, 1, 2] : List ℕ), ∀ doy ∈ season_days s,
        -1 ≤ time_diff_arg_raw (doy : ℝ) lat
    · rw [if_pos hc] at h
      exact ((Option.some.injEq _ _).mp h).symm
    · rw [if_neg hc] at h
      exact absurd h (by simp)
  subst hf
  have haf : 0 ≤ add_frac sid := by
    rw [add_frac]
    positivity
  have hia : ∀ b : Bool, 0 ≤ (if b then add_frac sid else 0) := by
    intro b
    cases b <;> simp [haf]
  have hib : ∀ b : Bool, (if b then add_frac sid else 0) ≤ add_frac sid := by
    intro b
    cases b <;> simp [haf]
  constructor
  · show 0 ≤ p_night lat lon n i sid
    rw [p_night]
    apply List.sum_nonneg
    intro x hx
    obtain ⟨doy, _, rfl⟩ := List.mem_map.mp hx
    rw [day_weight]
    exact add_nonneg (hia _) (hia _)
  · show p_night lat lon n i sid ≤ 2
    have hbound : ∀ doy ∈ season_days sid,
        day_weight lat lon n sid doy i ≤ 2 * add_frac sid := by
      intro doy _
      rw [day_weight]
      have hb1 := hib (slice_mem 0 (NEnd_idx lat lon n doy) n i)
      have hb2 := hib (slice_mem (NBeg_idx lat lon n doy) (n : ℤ) n i)
      linarith
    have hs := list_sum_map_le (season_days sid) _ (2 * add_frac sid) hbound
    rw [season_days_length] at hs
    rw [p_night]
    by_cases h0 : season_count sid = 0
    · have hz : (season_count sid : ℝ) * (2 * add_frac sid) = 0 := by
        rw [h0]
        norm_num
      linarith
    · have hcpos : (0 : ℝ) < (season_count sid : ℝ) := by
        exact_mod_cast Nat.pos_of_ne_zero h0
      have h2 : (season_count sid : ℝ) * (2 * add_frac sid) = 2 := by
        rw [add_frac]
        field_simp
      linarith

/-- Witness for the amended claim C6 at the concrete coordinates
`lat = 60`, `lon = 180`, `nTsLP = 96` (where the function returns),
evaluated at entry `(0, 0)`. -/
theorem claim_C6_amended_witness :
    probability_light_needed 60 180 96 =
      some (fun i sid => p_night 60 180 96 i sid) ∧
    0 ≤ p_night 60 180 96 0 0 ∧ p_night 60 180 96 0 0 ≤ 2 :=
  ⟨prob_60_180_some,
    (claim_C6_amended 60 180 96 _ prob_60_180_some 0 0).1,
    (claim_C6_amended 60 180 96 _ prob_60_180_some 0 0).2⟩

end

end Disaggregator
